import Mathlib

/-!
Verification of `autogen/logger/cosmos_logger.py` (class `CosmosLogger`): a
shallow embedding of the module and proofs of the spec's testable properties.

The module-global `this._session_id`, the four collection-handle fields, the
contents of the four document collections and the connection flag are gathered
into one explicit `World` state.  The external Cosmos DB client
(`azure.cosmos`), `json.dumps`, and the helpers of
`autogen.logger.logger_utils` (`to_dict`, `get_current_ts`) are not part of the
repository source; they are modelled from the spec where noted.  Nondeterminism
of the environment (fresh uuid, current timestamp, connection / provisioning /
per-write failures) is passed in explicitly.
-/

/-- Plain nested JSON values, the payloads the logger serializes. -/
inductive Json where
  | null
  | bool (b : Bool)
  | num (n : Int)
  | str (s : String)
  | arr (elems : List Json)
  | obj (fields : List (String × Json))

/-- Modelled from the spec: one character of Python json string escaping
(quote, backslash and common control characters; other characters pass
through unchanged). -/
def escChar (c : Char) : String :=
  if c = '"' then "\\\""
  else if c = '\\' then "\\\\"
  else if c = '\n' then "\\n"
  else if c = '\t' then "\\t"
  else if c = '\r' then "\\r"
  else String.singleton c

/-- Modelled from the spec: a Python json string literal. -/
def jstring (s : String) : String :=
  "\"" ++ String.join (s.toList.map escChar) ++ "\""

mutual
/-- Modelled from the spec: compact `json.dumps` with Python's default
separators (item separator comma-space, key separator colon-space). -/
def dumps : Json → String
  | .null => "null"
  | .bool true => "true"
  | .bool false => "false"
  | .num n => toString n
  | .str s => jstring s
  | .arr xs => "[" ++ dumpsElems xs ++ "]"
  | .obj fs => "\x7b" ++ dumpsFields fs ++ "\x7d"

/-- Array elements of compact `json.dumps`, comma-space separated. -/
def dumpsElems : List Json → String
  | [] => ""
  | [x] => dumps x
  | x :: y :: xs => dumps x ++ ", " ++ dumpsElems (y :: xs)

/-- Object entries of compact `json.dumps`, comma-space separated. -/
def dumpsFields : List (String × Json) → String
  | [] => ""
  | [kv] => jstring kv.1 ++ ": " ++ dumps kv.2
  | kv :: kw :: fs => jstring kv.1 ++ ": " ++ dumps kv.2 ++ ", " ++ dumpsFields (kw :: fs)
end

/-- A run of `n` spaces, for the indented serializer. -/
def pad (n : Nat) : String :=
  String.mk (List.replicate n ' ')

mutual
/-- Modelled from the spec: `json.dumps(v, indent=ind)` at nesting level
`lvl`: each container entry on its own line, indented, item separator a bare
comma before the newline, key separator colon-space; empty containers stay on
one line. -/
def dumpsInd (ind lvl : Nat) : Json → String
  | .obj [] => "\x7b\x7d"
  | .obj fs => "\x7b\n" ++ dumpsIndFields ind (lvl + 1) fs ++ "\n" ++ pad (ind * lvl) ++ "\x7d"
  | .arr [] => "[]"
  | .arr xs => "[\n" ++ dumpsIndElems ind (lvl + 1) xs ++ "\n" ++ pad (ind * lvl) ++ "]"
  | .null => "null"
  | .bool true => "true"
  | .bool false => "false"
  | .num n => toString n
  | .str s => jstring s

/-- Array elements of indented `json.dumps`. -/
def dumpsIndElems (ind lvl : Nat) : List Json → String
  | [] => ""
  | [x] => pad (ind * lvl) ++ dumpsInd ind lvl x
  | x :: y :: xs => pad (ind * lvl) ++ dumpsInd ind lvl x ++ ",\n" ++ dumpsIndElems ind lvl (y :: xs)

/-- Object entries of indented `json.dumps`. -/
def dumpsIndFields (ind lvl : Nat) : List (String × Json) → String
  | [] => ""
  | [kv] => pad (ind * lvl) ++ jstring kv.1 ++ ": " ++ dumpsInd ind lvl kv.2
  | kv :: kw :: fs =>
      pad (ind * lvl) ++ jstring kv.1 ++ ": " ++ dumpsInd ind lvl kv.2 ++ ",\n" ++
        dumpsIndFields ind lvl (kw :: fs)
end

/-- Error raised by the external database client on a failed request
(`azure.cosmos.exceptions.CosmosHttpResponseError`); the duplicate-key
conflict subclass `CosmosResourceExistsError` is marked by the flag. -/
structure CosmosErr where
  resourceExists : Bool
  message : String

/-- Python exceptions that can escape the embedded methods. -/
inductive PyErr where
  | connectionError
  | cosmosHttp (e : CosmosErr)
  | nameError (missing : String)

/-- Modelled from the spec: the external container's single-document insert
(`create_item`).  Documents are keyed by the collection's natural
entity-identifier field; inserting a duplicate key raises the conflict error,
and `netFail` injects a per-write network failure (spec section 7(c)). -/
def create_item {κ α : Type} [DecidableEq κ] (items : List (κ × α)) (key : κ) (v : α)
    (netFail : Bool) : Except CosmosErr (List (κ × α)) :=
  if netFail then Except.error ⟨false, "network"⟩
  else if items.any (fun p => p.1 = key) then Except.error ⟨true, "conflict"⟩
  else Except.ok (items ++ [(key, v)])

/-- Modelled from the spec: the external container's keyed replace-or-insert
(`upsert_item`): last write wins for an existing key. -/
def upsert_item {κ α : Type} [DecidableEq κ] (items : List (κ × α)) (key : κ) (v : α)
    (netFail : Bool) : Except CosmosErr (List (κ × α)) :=
  if netFail then Except.error ⟨false, "network"⟩
  else Except.ok (items.filter (fun p => decide (p.1 ≠ key)) ++ [(key, v)])

/-- The ChatCompletionRecord document assembled by `log_chat_completion`. -/
structure ChatItem where
  invocation_id : String
  client_id : Int
  wrapper_id : Int
  session_id : Option String
  request : String
  response : String
  is_cached : Int
  cost : Json
  start_time : String
  end_time : String

/-- The AgentRecord document shape of `log_new_agent`'s item dict.  Its
construction in the source reads the unbound name `is_cached` and therefore
never completes: no value of this type is ever stored. -/
structure AgentItem where
  agent_id : Int
  wrapper_id : Json
  session_id : Option String
  name : String
  «class» : String
  init_args : String
  timestamp : String

/-- The WrapperRecord document assembled by `log_new_wrapper`. -/
structure WrapperItem where
  wrapper_id : Int
  session_id : Option String
  init_args : String
  timestamp : String

/-- The ClientRecord document assembled by `log_new_client`. -/
structure ClientItem where
  client_id : Int
  wrapper_id : Int
  session_id : Option String
  «class» : String
  init_args : String
  timestamp : String

/-- The contents of the four collections, keyed by each collection's natural
entity identifier (`invocation_id`, `agent_id`, `wrapper_id`, `client_id`). -/
structure DB where
  chatItems : List (String × ChatItem)
  agentItems : List (Int × AgentItem)
  wrapperItems : List (Int × WrapperItem)
  clientItems : List (Int × ClientItem)

/-- The instance fields of `CosmosLogger`: the four collection-handle fields
(present or absent) and the configuration mapping. -/
structure CosmosLogger where
  chat_container : Option Unit
  agent_container : Option Unit
  wrapper_container : Option Unit
  client_container : Option Unit
  config : List (String × String)

/-- The whole mutable state: the module-global `this._session_id`, the logger
instance, the database contents and whether a client connection was made. -/
structure World where
  session_id : Option String
  lg : CosmosLogger
  db : DB
  connected : Bool

/-- Configuration lookup with a default, embedding the source's
`self.config[k] if k in self.config else dflt` pattern. -/
def getConfig (cfg : List (String × String)) (k dflt : String) : String :=
  match cfg.lookup k with
  | some v => v
  | none => dflt

/-- The environment of one `start` call: the fresh uuid and which external
steps succeed (connection, database creation, the four container creations). -/
structure StartEnv where
  newId : String
  connectOk : Bool
  dbOk : Bool
  chatOk : Bool
  agentOk : Bool
  wrapperOk : Bool
  clientOk : Bool

/-- CosmosLogger.start: reads the configured names, overwrites the global
session id with the fresh uuid, connects (raising ConnectionError on
failure), then provisions the database and the four containers in order
inside a try whose CosmosHttpResponseError handler only logs and whose
`finally: return this._session_id` returns the id regardless. -/
def start (w : World) (env : StartEnv) : World × Except PyErr String :=
  let _endpoint := getConfig w.lg.config "cosmos_endpoint" "https://localhost:8081"
  let _key := getConfig w.lg.config "cosmos_key"
    "C2y6yDjf5/R+ob0N8A7Cgv30VRDJIWEHLM+4QDU5DE2nQ9nDuVTqobD4b8mGGyPMbJyK8MkMqKwVb8ySxwqL6g=="
  let _dbname := getConfig w.lg.config "cosmos_dbname" "logs"
  let _chatName := getConfig w.lg.config "cosmos_chat_container" "chat_completions"
  let _agentName := getConfig w.lg.config "cosmos_agent_container" "agents"
  let _wrapperName := getConfig w.lg.config "cosmos_wrapper_container" "oai_wrappers"
  let _clientName := getConfig w.lg.config "cosmos_client_container" "oai_clients"
  let w1 : World := { w with session_id := some env.newId }
  if env.connectOk = false then
    (w1, Except.error PyErr.connectionError)
  else
    let w2 : World := { w1 with connected := true }
    if env.dbOk = false then (w2, Except.ok env.newId)
    else if env.chatOk = false then (w2, Except.ok env.newId)
    else
      let w3 : World := { w2 with lg := { w2.lg with chat_container := some () } }
      if env.agentOk = false then (w3, Except.ok env.newId)
      else
        let w4 : World := { w3 with lg := { w3.lg with agent_container := some () } }
        if env.wrapperOk = false then (w4, Except.ok env.newId)
        else
          let w5 : World := { w4 with lg := { w4.lg with wrapper_container := some () } }
          if env.clientOk = false then (w5, Except.ok env.newId)
          else
            let w6 : World := { w5 with lg := { w5.lg with client_container := some () } }
            (w6, Except.ok env.newId)

/-- Modelled from the spec: a chat message inside a structured completion
(`openai.types.chat` is an external collaborator outside src). -/
structure ChatMessage where
  role : String
  content : String

/-- Modelled from the spec: one choice of a structured completion. -/
structure Choice where
  index : Int
  message : ChatMessage
  finish_reason : String

/-- Modelled from the spec: the token-usage block of a structured completion. -/
structure Usage where
  prompt_tokens : Int
  completion_tokens : Int
  total_tokens : Int

/-- Modelled from the spec: a structured chat-completion result, "convertible
to a plain nested-value form". -/
structure ChatCompletion where
  id : String
  choices : List Choice
  created : Int
  model : String
  usage : Usage

/-- Nested plain form of a chat message. -/
def messageToDict (m : ChatMessage) : Json :=
  Json.obj [("role", Json.str m.role), ("content", Json.str m.content)]

/-- Nested plain form of a completion choice. -/
def choiceToDict (c : Choice) : Json :=
  Json.obj [("index", Json.num c.index), ("message", messageToDict c.message),
    ("finish_reason", Json.str c.finish_reason)]

/-- Nested plain form of the usage block. -/
def usageToDict (u : Usage) : Json :=
  Json.obj [("prompt_tokens", Json.num u.prompt_tokens),
    ("completion_tokens", Json.num u.completion_tokens),
    ("total_tokens", Json.num u.total_tokens)]

/-- Modelled from the spec: `to_dict` of `autogen.logger.logger_utils` (not
under src) on a structured completion: its full nested expansion into plain
values. -/
def chatCompletionToDict (c : ChatCompletion) : Json :=
  Json.obj [("id", Json.str c.id), ("choices", Json.arr (c.choices.map choiceToDict)),
    ("created", Json.num c.created), ("model", Json.str c.model),
    ("usage", usageToDict c.usage)]

/-- The `response` argument of `log_chat_completion`: absent, a plain string,
or a structured completion. -/
inductive ChatResponse where
  | absent
  | plain (s : String)
  | completion (c : ChatCompletion)

/-- The caller-supplied arguments of `log_chat_completion`. -/
structure ChatArgs where
  invocation_id : String
  client_id : Int
  wrapper_id : Int
  request : List (String × Json)
  response : ChatResponse
  is_cached : Int
  cost : Json
  start_time : String

/-- CosmosLogger.log_chat_completion: no-op when the chat handle is absent;
otherwise serializes the request and the response (wrapping an absent or
plain-string response as a one-key object, expanding a structured one with
indent 4), assembles the record and inserts it, swallowing any
CosmosHttpResponseError from the write.  `now` is the end timestamp
(`get_current_ts`, from logger_utils, outside src); `netFail` injects a
per-write network failure. -/
def log_chat_completion (w : World) (now : String) (netFail : Bool) (a : ChatArgs) :
    World × Option PyErr :=
  if w.lg.chat_container = none then (w, none)
  else
    let end_time := now
    let response_messages :=
      match a.response with
      | ChatResponse.absent => dumps (Json.obj [("response", Json.null)])
      | ChatResponse.plain s => dumps (Json.obj [("response", Json.str s)])
      | ChatResponse.completion c => dumpsInd 4 0 (chatCompletionToDict c)
    let item : ChatItem :=
      { invocation_id := a.invocation_id
        client_id := a.client_id
        wrapper_id := a.wrapper_id
        session_id := w.session_id
        request := dumps (Json.obj a.request)
        response := response_messages
        is_cached := a.is_cached
        cost := a.cost
        start_time := a.start_time
        end_time := end_time }
    match create_item w.db.chatItems a.invocation_id item netFail with
    | Except.ok items => ({ w with db := { w.db with chatItems := items } }, none)
    | Except.error _ => (w, none)

/-- The keys stripped from every `init_args` before serialization. -/
def excluded_keys : List String :=
  ["self", "__class__", "api_key", "organization", "base_url", "azure_endpoint"]

/-- Modelled from the spec: `to_dict(init_args, exclude=...)` of
`autogen.logger.logger_utils` (not under src) restricted to what the logger
needs: it drops every entry whose key is listed in `exclude`. -/
def to_dict_exclude (args : List (String × Json)) (exclude : List String) :
    List (String × Json) :=
  args.filter (fun kv => decide (kv.1 ∉ exclude))

/-- A framework agent as seen by the logger: its identity handle (`id(agent)`),
its client's wrapper id when it holds a client, its display name when present,
and its concrete class name. -/
structure AgentObj where
  pyId : Int
  clientWrapperId : Option Int
  name : Option String
  className : String

/-- CosmosLogger.log_new_agent: no-op when the agent handle is absent;
otherwise it strips the excluded keys from `init_args` and evaluates the
entries of the item dict left to right — the `is_cached` entry reads an
unbound name, so the call raises NameError before the upsert is reached and
the state is unchanged. -/
def log_new_agent (w : World) (now : String) (netFail : Bool) (agent : AgentObj)
    (init_args : List (String × Json)) : World × Option PyErr :=
  if w.lg.agent_container = none then (w, none)
  else
    let _args := to_dict_exclude init_args excluded_keys
    let _agent_id := agent.pyId
    let _wrapper_id : Json :=
      match agent.clientWrapperId with
      | some i => Json.num i
      | none => Json.str ""
    let _session_id := w.session_id
    let _name :=
      match agent.name with
      | some n => n
      | none => ""
    let _cls := agent.className
    (w, some (PyErr.nameError "is_cached"))

/-- A wrapper object as seen by the logger: only its identity handle. -/
structure WrapperObj where
  pyId : Int

/-- An API-client object as seen by the logger: its identity handle and its
concrete class name. -/
structure ClientObj where
  pyId : Int
  className : String

/-- CosmosLogger.log_new_wrapper: no-op when the wrapper handle is absent;
otherwise strips the excluded keys, assembles the record and inserts it,
passing on any CosmosHttpResponseError from the write. -/
def log_new_wrapper (w : World) (now : String) (netFail : Bool) (wrapper : WrapperObj)
    (init_args : List (String × Json)) : World × Option PyErr :=
  if w.lg.wrapper_container = none then (w, none)
  else
    let args := to_dict_exclude init_args excluded_keys
    let item : WrapperItem :=
      { wrapper_id := wrapper.pyId
        session_id := w.session_id
        init_args := dumps (Json.obj args)
        timestamp := now }
    match create_item w.db.wrapperItems wrapper.pyId item netFail with
    | Except.ok items => ({ w with db := { w.db with wrapperItems := items } }, none)
    | Except.error _ => (w, none)

/-- CosmosLogger.log_new_client: no-op when the client handle is absent;
otherwise strips the excluded keys, assembles the record (with the owning
wrapper's id and the client's class name) and inserts it, passing on any
CosmosHttpResponseError from the write. -/
def log_new_client (w : World) (now : String) (netFail : Bool) (client : ClientObj)
    (wrapper : WrapperObj) (init_args : List (String × Json)) : World × Option PyErr :=
  if w.lg.client_container = none then (w, none)
  else
    let args := to_dict_exclude init_args excluded_keys
    let item : ClientItem :=
      { client_id := client.pyId
        wrapper_id := wrapper.pyId
        session_id := w.session_id
        «class» := client.className
        init_args := dumps (Json.obj args)
        timestamp := now }
    match create_item w.db.clientItems client.pyId item netFail with
    | Except.ok items => ({ w with db := { w.db with clientItems := items } }, none)
    | Except.error _ => (w, none)

/-- CosmosLogger.stop: each collection-handle field that is set is reset to
absent; nothing else is touched. -/
def stop (w : World) : World :=
  let lg0 := w.lg
  let lg1 := if lg0.chat_container.isSome then { lg0 with chat_container := none } else lg0
  let lg2 := if lg1.agent_container.isSome then { lg1 with agent_container := none } else lg1
  let lg3 := if lg2.wrapper_container.isSome then { lg2 with wrapper_container := none } else lg2
  let lg4 := if lg3.client_container.isSome then { lg3 with client_container := none } else lg3
  { w with lg := lg4 }

/-- A logger instance as built by `__init__`: all four handles absent. -/
def initLogger (cfg : List (String × String)) : CosmosLogger :=
  { chat_container := none
    agent_container := none
    wrapper_container := none
    client_container := none
    config := cfg }

/-- Empty database contents. -/
def emptyDB : DB :=
  { chatItems := [], agentItems := [], wrapperItems := [], clientItems := [] }

/-- The initial world: fresh module state, fresh logger, empty database. -/
def w0 : World :=
  { session_id := none, lg := initLogger [], db := emptyDB, connected := false }

/-- An environment in which every external step succeeds. -/
def envOk : StartEnv :=
  { newId := "sid-1", connectOk := true, dbOk := true, chatOk := true,
    agentOk := true, wrapperOk := true, clientOk := true }

/-- The world after a fully successful `start` on the initial world. -/
def wStarted : World := (start w0 envOk).1

/-- A concrete agent object. -/
def ag0 : AgentObj :=
  { pyId := 11, clientWrapperId := some 7, name := some "assistant", className := "ConversableAgent" }

/-- A concrete wrapper object. -/
def wr0 : WrapperObj := { pyId := 7 }

/-- A concrete client object. -/
def cl0 : ClientObj := { pyId := 21, className := "OpenAI" }

/-- Concrete `log_chat_completion` arguments with an absent response. -/
def a0 : ChatArgs :=
  { invocation_id := "inv-1", client_id := 21, wrapper_id := 7,
    request := [("prompt", Json.str "hi")], response := ChatResponse.absent,
    is_cached := 0, cost := Json.num 0, start_time := "t0" }

/-- Absent chat handle makes `log_chat_completion` a pure no-op. -/
theorem chat_noop_of_absent (w : World) (now : String) (nf : Bool) (a : ChatArgs)
    (h : w.lg.chat_container = none) : log_chat_completion w now nf a = (w, none) := by
  simp [log_chat_completion, h]

/-- Absent agent handle makes `log_new_agent` a pure no-op. -/
theorem agent_noop_of_absent (w : World) (now : String) (nf : Bool) (ag : AgentObj)
    (ia : List (String × Json)) (h : w.lg.agent_container = none) :
    log_new_agent w now nf ag ia = (w, none) := by
  simp [log_new_agent, h]

/-- Absent wrapper handle makes `log_new_wrapper` a pure no-op. -/
theorem wrapper_noop_of_absent (w : World) (now : String) (nf : Bool) (wr : WrapperObj)
    (ia : List (String × Json)) (h : w.lg.wrapper_container = none) :
    log_new_wrapper w now nf wr ia = (w, none) := by
  simp [log_new_wrapper, h]

/-- Absent client handle makes `log_new_client` a pure no-op. -/
theorem client_noop_of_absent (w : World) (now : String) (nf : Bool) (cl : ClientObj)
    (wr : WrapperObj) (ia : List (String × Json)) (h : w.lg.client_container = none) :
    log_new_client w now nf cl wr ia = (w, none) := by
  simp [log_new_client, h]

/-- C1: every log method called while its collection handle is absent (logger
never started, or stopped) writes no document and raises no error: it returns
immediately with the state unchanged. -/
theorem log_methods_noop_when_handle_absent (w : World) (now : String) (nf : Bool)
    (a : ChatArgs) (ag : AgentObj) (wr : WrapperObj) (cl : ClientObj)
    (ia : List (String × Json)) :
    (w.lg.chat_container = none → log_chat_completion w now nf a = (w, none)) ∧
    (w.lg.agent_container = none → log_new_agent w now nf ag ia = (w, none)) ∧
    (w.lg.wrapper_container = none → log_new_wrapper w now nf wr ia = (w, none)) ∧
    (w.lg.client_container = none → log_new_client w now nf cl wr ia = (w, none)) :=
  ⟨chat_noop_of_absent w now nf a, agent_noop_of_absent w now nf ag ia,
   wrapper_noop_of_absent w now nf wr ia, client_noop_of_absent w now nf cl wr ia⟩

/-- Witness for C1 on the never-started initial world. -/
theorem log_methods_noop_when_handle_absent_witness :
    log_chat_completion w0 "t" false a0 = (w0, none) ∧
    log_new_agent w0 "t" false ag0 [] = (w0, none) ∧
    log_new_wrapper w0 "t" false wr0 [] = (w0, none) ∧
    log_new_client w0 "t" false cl0 wr0 [] = (w0, none) := by
  have h := log_methods_noop_when_handle_absent w0 "t" false a0 ag0 wr0 cl0 []
  exact ⟨h.1 rfl, h.2.1 rfl, h.2.2.1 rfl, h.2.2.2 rfl⟩

/-- C2 (refuting theorem): with the agent collection handle present,
`log_new_agent` always raises NameError("is_cached") before its write is
reached — the caller does observe an exception, for every agent, every
init_args and every write outcome. -/
theorem log_new_agent_always_raises (w : World) (now : String) (nf : Bool)
    (ag : AgentObj) (ia : List (String × Json))
    (h : w.lg.agent_container = some ()) :
    log_new_agent w now nf ag ia = (w, some (PyErr.nameError "is_cached")) := by
  simp [log_new_agent, h]

/-- Witness for C2 on a fully started logger. -/
theorem log_new_agent_always_raises_witness :
    wStarted.lg.agent_container = some () ∧
    log_new_agent wStarted "t" false ag0 [] =
      (wStarted, some (PyErr.nameError "is_cached")) :=
  ⟨rfl, log_new_agent_always_raises wStarted "t" false ag0 [] rfl⟩

/-- C3: when establishing the connection fails, `start` raises ConnectionError
and returns no session identifier. -/
theorem start_conn_failure_raises (w : World) (env : StartEnv)
    (h : env.connectOk = false) :
    (start w env).2 = Except.error PyErr.connectionError := by
  simp [start, h]

/-- Witness for C3 on a concrete failing environment. -/
theorem start_conn_failure_raises_witness :
    ({ envOk with connectOk := false } : StartEnv).connectOk = false ∧
    (start w0 { envOk with connectOk := false }).2 =
      Except.error PyErr.connectionError :=
  ⟨rfl, start_conn_failure_raises w0 { envOk with connectOk := false } rfl⟩

/-- C10: the global session identifier is overwritten with the fresh value
before the connection is attempted, so even a `start` that fails with
ConnectionError has already replaced the previous identifier. -/
theorem start_overwrites_session_even_on_conn_failure (w : World) (env : StartEnv)
    (h : env.connectOk = false) :
    (start w env).1.session_id = some env.newId := by
  simp [start, h]

/-- Witness for C10: a world holding an older session identifier. -/
theorem start_overwrites_session_even_on_conn_failure_witness :
    ({ envOk with connectOk := false } : StartEnv).connectOk = false ∧
    (start { w0 with session_id := some "old-sid" }
      { envOk with connectOk := false }).1.session_id = some "sid-1" :=
  ⟨rfl, start_overwrites_session_even_on_conn_failure
    { w0 with session_id := some "old-sid" } { envOk with connectOk := false } rfl⟩

/-- C9: `stop` resets exactly the four collection-handle fields to absent and
changes nothing else — the session identifier, the database contents, the
connection flag and the configuration all keep their values. -/
theorem stop_clears_only_handles (w : World) :
    stop w =
      { w with
          lg :=
            { w.lg with
                chat_container := none
                agent_container := none
                wrapper_container := none
                client_container := none } } := by
  rcases w with ⟨sid, ⟨c1, c2, c3, c4, cfg⟩, db, conn⟩
  cases c1 <;> cases c2 <;> cases c3 <;> cases c4 <;> rfl

/-- C7 (refuting theorem): two `log_new_agent` calls with the same agent on a
started logger both raise NameError("is_cached") and no agent record is ever
stored — not upsert semantics, the write is never reached. -/
theorem log_new_agent_twice_never_stores (w : World) (now1 now2 : String)
    (nf1 nf2 : Bool) (ag : AgentObj) (ia1 ia2 : List (String × Json))
    (h : w.lg.agent_container = some ()) :
    log_new_agent w now1 nf1 ag ia1 = (w, some (PyErr.nameError "is_cached")) ∧
    log_new_agent (log_new_agent w now1 nf1 ag ia1).1 now2 nf2 ag ia2 =
      (w, some (PyErr.nameError "is_cached")) ∧
    (log_new_agent (log_new_agent w now1 nf1 ag ia1).1 now2 nf2 ag ia2).1.db.agentItems =
      w.db.agentItems := by
  have h1 : log_new_agent w now1 nf1 ag ia1 = (w, some (PyErr.nameError "is_cached")) := by
    simp [log_new_agent, h]
  refine ⟨h1, ?_, ?_⟩ <;> rw [h1] <;> simp [log_new_agent, h]

/-- Witness for C7 on a fully started logger. -/
theorem log_new_agent_twice_never_stores_witness :
    wStarted.lg.agent_container = some () ∧
    log_new_agent wStarted "t1" false ag0 [] =
      (wStarted, some (PyErr.nameError "is_cached")) ∧
    log_new_agent (log_new_agent wStarted "t1" false ag0 []).1 "t2" false ag0 [] =
      (wStarted, some (PyErr.nameError "is_cached")) ∧
    (log_new_agent (log_new_agent wStarted "t1" false ag0 []).1 "t2" false ag0
        []).1.db.agentItems = wStarted.db.agentItems := by
  have h := log_new_agent_twice_never_stores wStarted "t1" "t2" false false ag0 [] [] rfl
  exact ⟨rfl, h.1, h.2.1, h.2.2⟩

/-- C4 (counterexample): with the database reachable and provisioning failing
at the agent container, `start` returns the session identifier but the chat
handle is already set, so a subsequent `log_chat_completion` writes a document
instead of being a no-op. -/
theorem start_partial_provision_counterexample :
    (start w0 { envOk with agentOk := false }).2 = Except.ok "sid-1" ∧
    (start w0 { envOk with agentOk := false }).1.lg.chat_container = some () ∧
    ((start w0 { envOk with agentOk := false }).1.db.chatItems).length = 0 ∧
    ((log_chat_completion (start w0 { envOk with agentOk := false }).1 "t1" false
        a0).1.db.chatItems).length = 1 := by
  exact ⟨rfl, rfl, rfl, rfl⟩

/-- C4 (amended): when the connection succeeds, `start` on an unstarted logger
returns the fresh session identifier even if provisioning fails; each
collection handle is set exactly when the database creation and every
container creation up to and including its own succeeded, and when the
database creation or the first (chat) container creation fails all four
handles stay absent and every subsequent log call is a no-op. -/
theorem start_provision_failure_degrades (w : World) (env : StartEnv)
    (hconn : env.connectOk = true)
    (hch : w.lg.chat_container = none) (hag : w.lg.agent_container = none)
    (hwr : w.lg.wrapper_container = none) (hcl : w.lg.client_container = none) :
    (start w env).2 = Except.ok env.newId ∧
    ((start w env).1.lg.chat_container =
      if env.dbOk && env.chatOk then some () else none) ∧
    ((start w env).1.lg.agent_container =
      if env.dbOk && env.chatOk && env.agentOk then some () else none) ∧
    ((start w env).1.lg.wrapper_container =
      if env.dbOk && env.chatOk && env.agentOk && env.wrapperOk then some () else none) ∧
    ((start w env).1.lg.client_container =
      if env.dbOk && env.chatOk && env.agentOk && env.wrapperOk && env.clientOk then
        some () else none) ∧
    ((env.dbOk = false ∨ env.chatOk = false) →
      ∀ (now : String) (nf : Bool) (a : ChatArgs) (ag : AgentObj) (wr : WrapperObj)
        (cl : ClientObj) (ia : List (String × Json)),
        log_chat_completion (start w env).1 now nf a = ((start w env).1, none) ∧
        log_new_agent (start w env).1 now nf ag ia = ((start w env).1, none) ∧
        log_new_wrapper (start w env).1 now nf wr ia = ((start w env).1, none) ∧
        log_new_client (start w env).1 now nf cl wr ia = ((start w env).1, none)) := by
  obtain ⟨nid, cok, dok, chok, agok, wrok, clok⟩ := env
  simp only at hconn
  subst hconn
  cases dok <;> cases chok <;> cases agok <;> cases wrok <;> cases clok <;>
    refine ⟨rfl, by simp [start, hch], by simp [start, hag], by simp [start, hwr],
      by simp [start, hcl], ?_⟩ <;>
    intro hfail now nf a ag wr cl ia <;>
    first
      | (simp at hfail; done)
      | exact ⟨chat_noop_of_absent _ now nf a (by simp [start, hch]),
          agent_noop_of_absent _ now nf ag ia (by simp [start, hag]),
          wrapper_noop_of_absent _ now nf wr ia (by simp [start, hwr]),
          client_noop_of_absent _ now nf cl wr ia (by simp [start, hcl])⟩

/-- Witness for C4 (amended): provisioning fails at the agent container on an
unstarted logger. -/
theorem start_provision_failure_degrades_witness :
    ({ envOk with agentOk := false } : StartEnv).connectOk = true ∧
    w0.lg.chat_container = none ∧
    (start w0 { envOk with agentOk := false }).2 = Except.ok "sid-1" ∧
    (start w0 { envOk with agentOk := false }).1.lg.chat_container = some () ∧
    (start w0 { envOk with agentOk := false }).1.lg.agent_container = none ∧
    (start w0 { envOk with agentOk := false }).1.lg.wrapper_container = none ∧
    (start w0 { envOk with agentOk := false }).1.lg.client_container = none := by
  have h := start_provision_failure_degrades w0 { envOk with agentOk := false }
    rfl rfl rfl rfl rfl
  exact ⟨rfl, rfl, h.1, h.2.1, h.2.2.1, h.2.2.2.1, h.2.2.2.2.1⟩

/-- A keyed list with no occurrence of `key` reports `any (= key)` false. -/
theorem any_key_eq_false {κ α : Type} [DecidableEq κ] (items : List (κ × α)) (key : κ)
    (h : ∀ p ∈ items, p.1 ≠ key) :
    (items.any (fun p => p.1 = key)) = false := by
  rw [Bool.eq_false_iff]
  intro htrue
  rw [List.any_eq_true] at htrue
  obtain ⟨p, hp, hpe⟩ := htrue
  exact h p hp (by simpa using hpe)

/-- C5: a successful `log_chat_completion` on a started logger appends exactly
one record, whose response payload is the compact serialization of a one-key
object wrapping null for an absent response, the compact serialization of a
one-key object wrapping the string for a plain-string response, and the
indented serialization of the full nested expansion for a structured
completion. -/
theorem log_chat_completion_response_payload (w : World) (now : String) (a : ChatArgs)
    (hc : w.lg.chat_container = some ())
    (hfresh : ∀ p ∈ w.db.chatItems, p.1 ≠ a.invocation_id) :
    (log_chat_completion w now false a).1.db.chatItems =
      w.db.chatItems ++
        [(a.invocation_id,
          { invocation_id := a.invocation_id
            client_id := a.client_id
            wrapper_id := a.wrapper_id
            session_id := w.session_id
            request := dumps (Json.obj a.request)
            response :=
              match a.response with
              | ChatResponse.absent => "\x7b\"response\": null\x7d"
              | ChatResponse.plain s => dumps (Json.obj [("response", Json.str s)])
              | ChatResponse.completion c => dumpsInd 4 0 (chatCompletionToDict c)
            is_cached := a.is_cached
            cost := a.cost
            start_time := a.start_time
            end_time := now })] := by
  have hany := any_key_eq_false w.db.chatItems a.invocation_id hfresh
  cases hr : a.response <;>
    (simp [log_chat_completion, create_item, hc, hany, hr]; try rfl)

/-- Witness for C5: an absent response on a fully started logger. -/
theorem log_chat_completion_response_payload_witness :
    wStarted.lg.chat_container = some () ∧
    (∀ p ∈ wStarted.db.chatItems, p.1 ≠ a0.invocation_id) ∧
    (log_chat_completion wStarted "t1" false a0).1.db.chatItems =
      wStarted.db.chatItems ++
        [(a0.invocation_id,
          { invocation_id := a0.invocation_id
            client_id := a0.client_id
            wrapper_id := a0.wrapper_id
            session_id := wStarted.session_id
            request := dumps (Json.obj a0.request)
            response :=
              match a0.response with
              | ChatResponse.absent => "\x7b\"response\": null\x7d"
              | ChatResponse.plain s => dumps (Json.obj [("response", Json.str s)])
              | ChatResponse.completion c => dumpsInd 4 0 (chatCompletionToDict c)
            is_cached := a0.is_cached
            cost := a0.cost
            start_time := a0.start_time
            end_time := "t1" })] := by
  have hfresh : ∀ p ∈ wStarted.db.chatItems, p.1 ≠ a0.invocation_id := by
    intro p hp
    simp [wStarted, start, w0, envOk, emptyDB, initLogger] at hp
  exact ⟨rfl, hfresh, log_chat_completion_response_payload wStarted "t1" a0 rfl hfresh⟩

/-- Looking up an excluded key in the stripped mapping finds nothing. -/
theorem lookup_to_dict_exclude (args : List (String × Json)) (ex : List String)
    (k : String) (hk : k ∈ ex) : (to_dict_exclude args ex).lookup k = none := by
  induction args with
  | nil => rfl
  | cons kv t ih =>
    obtain ⟨k1, v1⟩ := kv
    by_cases hkeep : k1 ∈ ex
    · have h1 : to_dict_exclude ((k1, v1) :: t) ex = to_dict_exclude t ex := by
        simp [to_dict_exclude, List.filter_cons, hkeep]
      rw [h1]; exact ih
    · have hne : (k == k1) = false := beq_eq_false_iff_ne.mpr (fun h => hkeep (h ▸ hk))
      have h1 : to_dict_exclude ((k1, v1) :: t) ex = (k1, v1) :: to_dict_exclude t ex := by
        simp [to_dict_exclude, List.filter_cons, hkeep]
      rw [h1]
      simp only [List.lookup, hne]
      exact ih

/-- C6: for every `init_args`, any document added by `log_new_wrapper` or
`log_new_client` carries as its serialized init_args exactly the stripped
mapping, the stripped mapping holds none of the excluded keys (`self`,
`__class__`, `api_key`, `organization`, `base_url`, `azure_endpoint`), and
`log_new_agent` never persists any document at all. -/
theorem log_new_init_args_never_contain_excluded (w : World) (now : String)
    (nf : Bool) (ag : AgentObj) (wr : WrapperObj) (cl : ClientObj)
    (ia : List (String × Json)) (k : String) (hk : k ∈ excluded_keys) :
    (to_dict_exclude ia excluded_keys).lookup k = none ∧
    ((log_new_wrapper w now nf wr ia).1.db.wrapperItems = w.db.wrapperItems ∨
      (log_new_wrapper w now nf wr ia).1.db.wrapperItems =
        w.db.wrapperItems ++
          [(wr.pyId,
            { wrapper_id := wr.pyId
              session_id := w.session_id
              init_args := dumps (Json.obj (to_dict_exclude ia excluded_keys))
              timestamp := now })]) ∧
    ((log_new_client w now nf cl wr ia).1.db.clientItems = w.db.clientItems ∨
      (log_new_client w now nf cl wr ia).1.db.clientItems =
        w.db.clientItems ++
          [(cl.pyId,
            { client_id := cl.pyId
              wrapper_id := wr.pyId
              session_id := w.session_id
              «class» := cl.className
              init_args := dumps (Json.obj (to_dict_exclude ia excluded_keys))
              timestamp := now })]) ∧
    (log_new_agent w now nf ag ia).1.db.agentItems = w.db.agentItems := by
  refine ⟨lookup_to_dict_exclude ia excluded_keys k hk, ?_, ?_, ?_⟩
  · by_cases hg : w.lg.wrapper_container = none
    · left; simp [log_new_wrapper, hg]
    · cases nf with
      | true => left; simp [log_new_wrapper, hg, create_item]
      | false =>
        by_cases hdup : (w.db.wrapperItems.any fun p => p.1 = wr.pyId) = true
        · left; simp [log_new_wrapper, hg, create_item, hdup]
        · right
          simp [log_new_wrapper, hg, create_item,
            Bool.eq_false_iff.mpr (fun h => hdup h)]
  · by_cases hg : w.lg.client_container = none
    · left; simp [log_new_client, hg]
    · cases nf with
      | true => left; simp [log_new_client, hg, create_item]
      | false =>
        by_cases hdup : (w.db.clientItems.any fun p => p.1 = cl.pyId) = true
        · left; simp [log_new_client, hg, create_item, hdup]
        · right
          simp [log_new_client, hg, create_item,
            Bool.eq_false_iff.mpr (fun h => hdup h)]
  · by_cases hg : w.lg.agent_container = none <;> simp [log_new_agent, hg]

/-- Witness for C6: a credential-bearing init_args on a fully started logger. -/
theorem log_new_init_args_never_contain_excluded_witness :
    "api_key" ∈ excluded_keys ∧
    (to_dict_exclude [("api_key", Json.str "secret"), ("model", Json.str "m")]
        excluded_keys).lookup "api_key" = none ∧
    ((log_new_wrapper wStarted "t1" false wr0
        [("api_key", Json.str "secret"), ("model", Json.str "m")]).1.db.wrapperItems =
      wStarted.db.wrapperItems ∨
      (log_new_wrapper wStarted "t1" false wr0
        [("api_key", Json.str "secret"), ("model", Json.str "m")]).1.db.wrapperItems =
      wStarted.db.wrapperItems ++
        [(wr0.pyId,
          { wrapper_id := wr0.pyId
            session_id := wStarted.session_id
            init_args := dumps (Json.obj (to_dict_exclude
              [("api_key", Json.str "secret"), ("model", Json.str "m")] excluded_keys))
            timestamp := "t1" })]) := by
  have h := log_new_init_args_never_contain_excluded wStarted "t1" false ag0 wr0 cl0
    [("api_key", Json.str "secret"), ("model", Json.str "m")] "api_key" (by simp [excluded_keys])
  exact ⟨by simp [excluded_keys], h.1, h.2.1⟩

/-- C8: on a started logger, inserting a wrapper (resp. client) record twice
with the same identifier raises nothing: the first call writes the record, the
second call's duplicate-key conflict is swallowed, and the first-written
record remains unchanged. -/
theorem log_new_wrapper_client_twice_keeps_first (w : World) (now1 now2 : String)
    (wr : WrapperObj) (cl : ClientObj) (ia1 ia2 : List (String × Json))
    (hw : w.lg.wrapper_container = some ())
    (hc : w.lg.client_container = some ())
    (hfw : ∀ p ∈ w.db.wrapperItems, p.1 ≠ wr.pyId)
    (hfc : ∀ p ∈ w.db.clientItems, p.1 ≠ cl.pyId) :
    ((log_new_wrapper w now1 false wr ia1).2 = none ∧
      (log_new_wrapper (log_new_wrapper w now1 false wr ia1).1 now2 false wr ia2).2 =
        none ∧
      (log_new_wrapper (log_new_wrapper w now1 false wr ia1).1 now2 false wr
          ia2).1.db.wrapperItems =
        w.db.wrapperItems ++
          [(wr.pyId,
            { wrapper_id := wr.pyId
              session_id := w.session_id
              init_args := dumps (Json.obj (to_dict_exclude ia1 excluded_keys))
              timestamp := now1 })]) ∧
    ((log_new_client w now1 false cl wr ia1).2 = none ∧
      (log_new_client (log_new_client w now1 false cl wr ia1).1 now2 false cl wr
          ia2).2 = none ∧
      (log_new_client (log_new_client w now1 false cl wr ia1).1 now2 false cl wr
          ia2).1.db.clientItems =
        w.db.clientItems ++
          [(cl.pyId,
            { client_id := cl.pyId
              wrapper_id := wr.pyId
              session_id := w.session_id
              «class» := cl.className
              init_args := dumps (Json.obj (to_dict_exclude ia1 excluded_keys))
              timestamp := now1 })]) := by
  have hanyw := any_key_eq_false w.db.wrapperItems wr.pyId hfw
  have hanyc := any_key_eq_false w.db.clientItems cl.pyId hfc
  have hw1 : log_new_wrapper w now1 false wr ia1 =
      ({ w with db := { w.db with wrapperItems := w.db.wrapperItems ++
        [(wr.pyId,
          { wrapper_id := wr.pyId
            session_id := w.session_id
            init_args := dumps (Json.obj (to_dict_exclude ia1 excluded_keys))
            timestamp := now1 })] } }, none) := by
    simp [log_new_wrapper, hw, create_item, hanyw]
  have hc1 : log_new_client w now1 false cl wr ia1 =
      ({ w with db := { w.db with clientItems := w.db.clientItems ++
        [(cl.pyId,
          { client_id := cl.pyId
            wrapper_id := wr.pyId
            session_id := w.session_id
            «class» := cl.className
            init_args := dumps (Json.obj (to_dict_exclude ia1 excluded_keys))
            timestamp := now1 })] } }, none) := by
    simp [log_new_client, hc, create_item, hanyc]
  refine ⟨⟨by rw [hw1], ?_, ?_⟩, ⟨by rw [hc1], ?_, ?_⟩⟩ <;>
    simp only [hw1, hc1] <;>
    simp [log_new_wrapper, log_new_client, hw, hc, create_item, List.any_append]

/-- Witness for C8: duplicate wrapper and client inserts on a fully started
logger. -/
theorem log_new_wrapper_client_twice_keeps_first_witness :
    wStarted.lg.wrapper_container = some () ∧
    wStarted.lg.client_container = some () ∧
    ((log_new_wrapper wStarted "t1" false wr0 [("model", Json.str "m")]).2 = none ∧
      (log_new_wrapper (log_new_wrapper wStarted "t1" false wr0
          [("model", Json.str "m")]).1 "t2" false wr0 []).2 = none ∧
      (log_new_wrapper (log_new_wrapper wStarted "t1" false wr0
          [("model", Json.str "m")]).1 "t2" false wr0 []).1.db.wrapperItems =
        wStarted.db.wrapperItems ++
          [(wr0.pyId,
            { wrapper_id := wr0.pyId
              session_id := wStarted.session_id
              init_args := dumps (Json.obj (to_dict_exclude [("model", Json.str "m")]
                excluded_keys))
              timestamp := "t1" })]) ∧
    ((log_new_client wStarted "t1" false cl0 wr0 [("model", Json.str "m")]).2 = none ∧
      (log_new_client (log_new_client wStarted "t1" false cl0 wr0
          [("model", Json.str "m")]).1 "t2" false cl0 wr0 []).2 = none ∧
      (log_new_client (log_new_client wStarted "t1" false cl0 wr0
          [("model", Json.str "m")]).1 "t2" false cl0 wr0 []).1.db.clientItems =
        wStarted.db.clientItems ++
          [(cl0.pyId,
            { client_id := cl0.pyId
              wrapper_id := wr0.pyId
              session_id := wStarted.session_id
              «class» := cl0.className
              init_args := dumps (Json.obj (to_dict_exclude [("model", Json.str "m")]
                excluded_keys))
              timestamp := "t1" })]) := by
  have hfw : ∀ p ∈ wStarted.db.wrapperItems, p.1 ≠ wr0.pyId := by
    intro p hp
    simp [wStarted, start, w0, envOk, emptyDB, initLogger] at hp
  have hfc : ∀ p ∈ wStarted.db.clientItems, p.1 ≠ cl0.pyId := by
    intro p hp
    simp [wStarted, start, w0, envOk, emptyDB, initLogger] at hp
  have h := log_new_wrapper_client_twice_keeps_first wStarted "t1" "t2" wr0 cl0
    [("model", Json.str "m")] [] rfl rfl hfw hfc
  exact ⟨rfl, rfl, h.1, h.2⟩
